import Mathlib

/-!
Shallow embedding of `selfdrive/ui/ui.cc` (openpilot_0812 UI state pipeline).

Real-valued quantities (C `float`/`double`/`qreal`) are modelled as `ℚ`;
machine integers as `ℕ`/`ℤ`.  Fallible operations return `Option`.  The
Qt geometric helpers (`QRectF::contains`, `QTransform::map` on a point)
are embedded following their documented Qt semantics, since the source
calls into them.
-/

namespace UI

/-- Modelled from the spec: the fixed number of trajectory samples
(`TRAJECTORY_SIZE`, declared in `ui.h`, outside `src/`); the spec calls it
"a fixed number of steps".  Value per upstream openpilot. -/
def TRAJECTORY_SIZE : ℕ := 33

/-- Modelled from the spec: the UI tick frequency (`UI_FREQ`, declared in
`ui.h`, outside `src/`); the spec only calls it "a fixed tick frequency".
Value per upstream openpilot. -/
def UI_FREQ : ℕ := 20

/-- Modelled from the spec: the configured minimum draw distance
(`MIN_DRAW_DISTANCE`, declared outside `src/`); the spec calls it the lower
bound of "a configured [min, max] draw-distance range". -/
def MIN_DRAW_DISTANCE : ℚ := 10

/-- Modelled from the spec: the configured maximum draw distance
(`MAX_DRAW_DISTANCE`, declared outside `src/`). -/
def MAX_DRAW_DISTANCE : ℚ := 100

/-- Modelled from the spec: the fixed capacity of a polyline's vertex array
(`line_vertices_data::v`, declared in `ui.h`, outside `src/`): the closed
ribbon holds at most two vertices per trajectory sample. -/
def LINE_VERTICES_CAPACITY : ℕ := 2 * TRAJECTORY_SIZE

/-- `std::clamp(v, lo, hi)` on rationals, following the C++ reference
semantics (`v < lo ? lo : hi < v ? hi : v`). -/
def clampQ (v lo hi : ℚ) : ℚ :=
  if v < lo then lo else if hi < v then hi else v

/-- A 3-vector (`vec3`). -/
structure Vec3 where
  x : ℚ
  y : ℚ
  z : ℚ
deriving DecidableEq

/-- A row-major 3×3 matrix (`mat3`). -/
structure Mat3 where
  m00 : ℚ
  m01 : ℚ
  m02 : ℚ
  m10 : ℚ
  m11 : ℚ
  m12 : ℚ
  m20 : ℚ
  m21 : ℚ
  m22 : ℚ
deriving DecidableEq

/-- `matvecmul3`: 3×3 matrix times 3-vector. -/
def matvecmul3 (m : Mat3) (v : Vec3) : Vec3 :=
  ⟨m.m00 * v.x + m.m01 * v.y + m.m02 * v.z,
   m.m10 * v.x + m.m11 * v.y + m.m12 * v.z,
   m.m20 * v.x + m.m21 * v.y + m.m22 * v.z⟩

/-- The identity 3×3 matrix (used for concrete witnesses). -/
def idMat3 : Mat3 := ⟨1, 0, 0, 0, 1, 0, 0, 0, 1⟩

/-- A 2-D point (`QPointF` / `vertex_data`). -/
structure QPointF where
  x : ℚ
  y : ℚ
deriving DecidableEq

/-- `QRectF`: stored as top-left corner plus width and height, as in Qt. -/
structure QRectF where
  xp : ℚ
  yp : ℚ
  w : ℚ
  h : ℚ
deriving DecidableEq

/-- `QRectF::contains(const QPointF &)`, following the Qt implementation:
normalise each axis for a negative extent, reject a null (zero-extent)
axis, then test closed-interval membership on both axes. -/
def QRectF.contains (r : QRectF) (p : QPointF) : Bool :=
  let l := if r.w < 0 then r.xp + r.w else r.xp
  let rr := if r.w < 0 then r.xp else r.xp + r.w
  if l = rr then false
  else if p.x < l ∨ rr < p.x then false
  else
    let t := if r.h < 0 then r.yp + r.h else r.yp
    let b := if r.h < 0 then r.yp else r.yp + r.h
    if t = b then false
    else if p.y < t ∨ b < p.y then false
    else true

/-- The affine part of a `QTransform`, as used by
`QTransform::map(const QPointF &)` on the car-space transform. -/
structure QTransform where
  m11 : ℚ
  m12 : ℚ
  m21 : ℚ
  m22 : ℚ
  m31 : ℚ
  m32 : ℚ
deriving DecidableEq

/-- `QTransform::map` on a point (affine case). -/
def QTransform.map (t : QTransform) (p : QPointF) : QPointF :=
  ⟨t.m11 * p.x + t.m21 * p.y + t.m31, t.m12 * p.x + t.m22 * p.y + t.m32⟩

/-- The identity transform (used for concrete witnesses). -/
def idTransform : QTransform := ⟨1, 0, 0, 1, 0, 0⟩

/-- `cereal::PandaState::PandaType`. -/
inductive PandaType
  | unknown
  | whitePanda
  | greyPanda
  | blackPanda
  | pedal
  | uno
  | dos
  | redPanda
deriving DecidableEq

/-- `UIStatus` (`STATUS_DISENGAGED` …). -/
inductive UIStatus
  | disengaged
  | engaged
  | warning
  | alert
deriving DecidableEq

/-- `cereal::ControlsState::AlertStatus`. -/
inductive AlertStatus
  | normal
  | userPrompt
  | critical
deriving DecidableEq

/-- The fields of `cereal::ControlsState` read by this file.  The alert
text messages are carried as opaque payload tokens. -/
structure ControlsState where
  alert_status : AlertStatus
  enabled : Bool
  engageable : Bool
  alertTextMsg1 : ℕ
  alertTextMsg2 : ℕ
  alertTextMsg3 : ℕ
deriving DecidableEq

/-- A `cereal::ModelDataV2::XYZTData` sample list: the x/y/z coordinate
sequences, modelled as total functions on the sample index. -/
structure XYZT where
  x : ℕ → ℚ
  y : ℕ → ℚ
  z : ℕ → ℚ

/-- The fields of `cereal::ModelDataV2` read by `update_model`. -/
structure ModelDataV2 where
  position : XYZT
  lane_lines : Fin 4 → XYZT
  lane_line_probs : Fin 4 → ℚ
  road_edges : Fin 2 → XYZT
  road_edge_stds : Fin 2 → ℚ

/-- One radar lead (`cereal::RadarState::LeadData`). -/
structure LeadData where
  status : Bool
  dRel : ℚ
  yRel : ℚ
deriving DecidableEq

/-- The fields of `cereal::RadarState` read by this file. -/
structure RadarState where
  lead_one : LeadData
  lead_two : LeadData
deriving DecidableEq

/-- The lead selector of the `update_leads` loop:
`(i == 0) ? radar_state.getLeadOne() : radar_state.getLeadTwo()`. -/
def RadarState.lead (r : RadarState) : Fin 2 → LeadData
  | 0 => r.lead_one
  | 1 => r.lead_two

/-- One entry of the `pandaStates` list. -/
structure PandaEntry where
  pandaType : PandaType
  ignition_line : Bool
  ignition_can : Bool
deriving DecidableEq

/-- One `cereal::SensorEventData` entry, dispatched by `which()`. -/
inductive SensorEvent
  | acceleration (v : List ℚ)
  | gyroUncalibrated (v : List ℚ)
  | other

/-- The fields of `cereal::CarState` read by this file. -/
structure CarState where
  vEgo : ℚ
  cruiseSwState : ℤ
deriving DecidableEq

/-- The debug alert texts copied from the controls state
(`scene.alert.alertTextMsg1..3`), as opaque payload tokens. -/
structure AlertTexts where
  alertTextMsg1 : ℕ
  alertTextMsg2 : ℕ
  alertTextMsg3 : ℕ
deriving DecidableEq

/-- The screen-control sub-state `UIScene::scr` ("atom" fields). -/
structure ScrState where
  awake : ℤ
  autoScreenOff : ℤ
  nTime : ℤ
  brightness_off : ℤ
  map_is_running : Bool
deriving DecidableEq

/-- `UIScene`: the aggregate scene snapshot.  Payloads that the source
copies verbatim with no further reads are carried as opaque `ℕ` tokens. -/
structure UIScene where
  view_from_calib : Mat3
  lane_line_vertices : Fin 4 → List QPointF
  lane_line_probs : Fin 4 → ℚ
  road_edge_vertices : Fin 2 → List QPointF
  road_edge_stds : Fin 2 → ℚ
  track_vertices : List QPointF
  lead_vertices : Fin 2 → QPointF
  engageable : Bool
  dm_active : Bool
  world_objects_visible : Bool
  pandaType : PandaType
  ignition : Bool
  longitudinal_control : Bool
  accel_sensor : ℚ
  gyro_sensor : ℚ
  light_sensor : ℚ
  started : Bool
  started_frame : ℕ
  end_to_end : Bool
  IsOpenpilotViewEnabled : Bool
  is_metric : Bool
  gpsLocationExternal : ℕ
  deviceState : ℕ
  controls_state : ControlsState
  alert : AlertTexts
  car_state : CarState
  scr : ScrState
  liveNaviData : ℕ
  liveParameters : ℕ
  lateralPlan : ℕ

/-- `UIState`.  The two camera intrinsic matrices are global constants in
the source (defined outside `src/`); they are carried here as fields so the
embedding stays parametric in their values.  `started_prev` models the
function-local `static bool started_prev` of `update_status`; `vg` models
the non-nullness of the NanoVG handle `s->vg`. -/
structure UIState where
  scene : UIScene
  status : UIStatus
  fb_w : ℚ
  fb_h : ℚ
  wide_camera : Bool
  car_space_transform : QTransform
  fcam_intrinsic_matrix : Mat3
  ecam_intrinsic_matrix : Mat3
  vg : Bool
  running_time : ℚ
  started_prev : Bool

/-- The unclipped screen-space projection computed inside
`calib_frame_to_full_frame` (the local `point`):
rotate by `view_from_calib`, apply the selected intrinsic matrix, divide by
the depth component, and map through the car-space transform. -/
def car_space_point (s : UIState) (in_x in_y in_z : ℚ) : QPointF :=
  let pt : Vec3 := ⟨in_x, in_y, in_z⟩
  let Ep := matvecmul3 s.scene.view_from_calib pt
  let KEp := matvecmul3
    (if s.wide_camera then s.ecam_intrinsic_matrix else s.fcam_intrinsic_matrix) Ep
  s.car_space_transform.map ⟨KEp.x / KEp.z, KEp.y / KEp.z⟩

/-- `calib_frame_to_full_frame`: project a car-space point into full-frame
image space; `some point` models `return true` with `*out` written,
`none` models `return false` with `*out` left unwritten. -/
def calib_frame_to_full_frame (s : UIState) (in_x in_y in_z : ℚ) : Option QPointF :=
  let margin : ℚ := 500
  let clip_region : QRectF := ⟨-margin, -margin, s.fb_w + 2 * margin, s.fb_h + 2 * margin⟩
  let point := car_space_point s in_x in_y in_z
  if clip_region.contains point then some point else none

/-- The loop of `get_path_length_idx`, with explicit fuel (the loop runs at
most `TRAJECTORY_SIZE` iterations, so any fuel above that is equivalent):
`for (int i = 0; i < TRAJECTORY_SIZE && line_x[i] < path_height; ++i) max_idx = i;`. -/
def pathLengthScan (x : ℕ → ℚ) (lim : ℚ) : ℕ → ℕ → ℕ → ℕ
  | 0, _, maxIdx => maxIdx
  | fuel + 1, i, maxIdx =>
    if i < TRAJECTORY_SIZE ∧ x i < lim then pathLengthScan x lim fuel (i + 1) i
    else maxIdx

/-- `get_path_length_idx`. -/
def get_path_length_idx (x : ℕ → ℚ) (lim : ℚ) : ℕ :=
  pathLengthScan x lim (TRAJECTORY_SIZE + 1) 0 0

/-- `update_line_data`: build the closed ribbon for one centerline.  The
pointer-bump writes of the source (`v += calib_frame_to_full_frame(...)`)
append a vertex exactly when the projection passes the clip test, first
along the left-offset boundary from index 0 to `max_idx`, then along the
right-offset boundary from `max_idx` back down to 0; `pvd->cnt` is the
length of the resulting list. -/
def update_line_data (s : UIState) (line : XYZT) (y_off z_off : ℚ) (max_idx : ℕ) :
    List QPointF :=
  ((List.range (max_idx + 1)).filterMap
      (fun i => calib_frame_to_full_frame s (line.x i) (line.y i - y_off) (line.z i + z_off))) ++
  ((List.range (max_idx + 1)).reverse.filterMap
      (fun i => calib_frame_to_full_frame s (line.x i) (line.y i + y_off) (line.z i + z_off)))

/-- `update_model`: recompute lane-line, road-edge and driving-path
polylines.  `lead_one` is the payload read from `(*s->sm)["radarState"]`
(the latest sample regardless of freshness). -/
def update_model (s : UIState) (model : ModelDataV2) (lead_one : LeadData) : UIState :=
  let max_distance := clampQ (model.position.x (TRAJECTORY_SIZE - 1))
                             MIN_DRAW_DISTANCE MAX_DRAW_DISTANCE
  let max_idx := get_path_length_idx (model.lane_lines 0).x max_distance
  let max_distance_path :=
    if lead_one.status then
      let lead_d := lead_one.dRel * 2
      clampQ (lead_d - min (lead_d * 0.35) 10) 0 max_distance
    else max_distance
  let max_idx_path := get_path_length_idx model.position.x max_distance_path
  { s with scene := { s.scene with
      lane_line_probs := fun i => model.lane_line_probs i,
      lane_line_vertices := fun i =>
        update_line_data s (model.lane_lines i) (0.025 * model.lane_line_probs i) 0 max_idx,
      road_edge_stds := fun i => model.road_edge_stds i,
      road_edge_vertices := fun i =>
        update_line_data s (model.road_edges i) 0.025 0 max_idx,
      track_vertices := update_line_data s model.position 0.5 1.22 max_idx_path } }

/-- The body of the `update_leads` loop for one lead: when the lead's
status is asserted, project its marker (vertical coordinate looked up from
the model's z profile when a position line is available, else 0); the
vertex slot keeps its previous value when the status is off or the
projection fails the clip test. -/
def lead_vertex_update (s : UIState) (prev : QPointF) (lead : LeadData)
    (line : Option XYZT) : QPointF :=
  if lead.status then
    let z := match line with
      | some l => l.z (get_path_length_idx l.x lead.dRel)
      | none => 0
    match calib_frame_to_full_frame s lead.dRel (-lead.yRel) (z + 1.22) with
    | some p => p
    | none => prev
  else prev

/-- `update_leads`. -/
def update_leads (s : UIState) (radar_state : RadarState) (line : Option XYZT) : UIState :=
  { s with scene := { s.scene with
      lead_vertices := fun i =>
        lead_vertex_update s (s.scene.lead_vertices i) (radar_state.lead i) line } }

/-- The per-tick view of the `SubMaster` that `update_state` reads:
per-topic freshness flags, received-frame counters, and the latest
payloads.  `calib_view_from_calib` stands for the matrix
`view_from_device * euler2rot(rpyCalib)` computed in the calibration
branch (the trigonometric Euler rotation is real-valued and is not read by
any other computation, so the composed matrix is carried as data). -/
structure SubSnapshot where
  frame : ℕ
  nanos_since_boot : ℕ
  updated_modelV2 : Bool
  updated_radarState : Bool
  updated_liveCalibration : Bool
  updated_pandaStates : Bool
  updated_carParams : Bool
  updated_sensorEvents : Bool
  updated_roadCameraState : Bool
  updated_controlsState : Bool
  updated_gpsLocationExternal : Bool
  updated_deviceState : Bool
  updated_carState : Bool
  updated_liveNaviData : Bool
  updated_liveParameters : Bool
  updated_lateralPlan : Bool
  rcv_frame_modelV2 : ℕ
  rcv_frame_pandaStates : ℕ
  modelV2 : ModelDataV2
  radarState : RadarState
  calib_view_from_calib : Mat3
  pandaStates : List PandaEntry
  carParams_longitudinal : Bool
  sensorEvents : List SensorEvent
  camera_gain : ℚ
  camera_integ_lines : ℕ
  deviceState_started : Bool
  deviceState_started_mono : ℕ
  deviceState_payload : ℕ
  controlsState : ControlsState
  dm_active : Bool
  gpsLocationExternal_payload : ℕ
  carState : CarState
  liveNaviData_payload : ℕ
  liveNaviData_mapEnable : Bool
  liveParameters_payload : ℕ
  lateralPlan_payload : ℕ

/-- Hardware variant flags (`Hardware::EON()`, `Hardware::TICI()`). -/
structure HardwareFlags where
  eon : Bool
  tici : Bool
deriving DecidableEq

/-- `update_state`, running-time line:
`s->running_time = 1e-9 * (nanos_since_boot() - ...getStartedMonoTime())`. -/
def us_time (s : UIState) (sm : SubSnapshot) : UIState :=
  { s with running_time :=
      ((sm.nanos_since_boot : ℚ) - (sm.deviceState_started_mono : ℚ)) / 1000000000 }

/-- `update_state`, 2 Hz engageability/DM block. -/
def us_engage (s : UIState) (sm : SubSnapshot) : UIState :=
  if sm.frame % (UI_FREQ / 2) = 0 then
    { s with scene := { s.scene with
        engageable := sm.controlsState.engageable || sm.controlsState.enabled,
        dm_active := sm.dm_active } }
  else s

/-- `update_state`, `modelV2` branch. -/
def us_model (s : UIState) (sm : SubSnapshot) : UIState :=
  if sm.updated_modelV2 && s.vg then
    update_model s sm.modelV2 sm.radarState.lead_one
  else s

/-- `update_state`, `radarState` branch: the position line is taken from
the stored model payload whenever a model message has ever been received
(`sm.rcv_frame("modelV2") > 0`). -/
def us_radar (s : UIState) (sm : SubSnapshot) : UIState :=
  if sm.updated_radarState && s.vg then
    update_leads s sm.radarState
      (if 0 < sm.rcv_frame_modelV2 then some sm.modelV2.position else none)
  else s

/-- `update_state`, `liveCalibration` branch. -/
def us_calib (s : UIState) (sm : SubSnapshot) : UIState :=
  if sm.updated_liveCalibration then
    { s with scene := { s.scene with
        world_objects_visible := true,
        view_from_calib := sm.calib_view_from_calib } }
  else s

/-- `update_state`, `pandaStates` branch with the staleness fallback. -/
def us_panda (s : UIState) (sm : SubSnapshot) : UIState :=
  if sm.updated_pandaStates then
    match sm.pandaStates with
    | [] => s
    | p0 :: _ =>
      if p0.pandaType ≠ PandaType.unknown then
        { s with scene := { s.scene with
            pandaType := p0.pandaType,
            ignition := sm.pandaStates.any (fun p => p.ignition_line || p.ignition_can) } }
      else
        { s with scene := { s.scene with pandaType := p0.pandaType } }
  else if 5 * UI_FREQ < sm.frame - sm.rcv_frame_pandaStates then
    { s with scene := { s.scene with pandaType := PandaType.unknown } }
  else s

/-- `update_state`, `carParams` branch. -/
def us_carparams (s : UIState) (sm : SubSnapshot) : UIState :=
  if sm.updated_carParams then
    { s with scene := { s.scene with longitudinal_control := sm.carParams_longitudinal } }
  else s

/-- One step of the `sensorEvents` loop. -/
def sensor_step (sc : UIScene) : SensorEvent → UIScene
  | SensorEvent.acceleration v =>
      if v.length ≠ 0 then { sc with accel_sensor := v.getD 2 0 } else sc
  | SensorEvent.gyroUncalibrated v =>
      if v.length ≠ 0 then { sc with gyro_sensor := v.getD 1 0 } else sc
  | SensorEvent.other => sc

/-- `update_state`, `sensorEvents` branch (only while not started). -/
def us_sensors (s : UIState) (sm : SubSnapshot) : UIState :=
  if !s.scene.started && sm.updated_sensorEvents then
    { s with scene := sm.sensorEvents.foldl sensor_step s.scene }
  else s

/-- `update_state`, `roadCameraState` branch. -/
def us_camera (s : UIState) (sm : SubSnapshot) (hw : HardwareFlags) : UIState :=
  if sm.updated_roadCameraState then
    let max_lines : ℚ := if hw.eon then 5408 else 1904
    let max_gain : ℚ := if hw.eon then 1 else 10
    let max_ev0 := max_lines * max_gain
    let max_ev := if hw.tici then max_ev0 / 6 else max_ev0
    let ev := sm.camera_gain * (sm.camera_integ_lines : ℚ)
    { s with scene := { s.scene with
        light_sensor := clampQ (1 - ev / max_ev) 0 1 } }
  else s

/-- `update_state`, started-flag computation. -/
def us_started (s : UIState) (sm : SubSnapshot) : UIState :=
  if s.scene.IsOpenpilotViewEnabled then
    { s with scene := { s.scene with started := sm.deviceState_started } }
  else
    { s with scene := { s.scene with
        started := sm.deviceState_started && s.scene.ignition } }

/-- `update_state`, trailing "atom" copy block (gps / deviceState /
controlsState+alert text / carState+cruise switch / liveNaviData /
liveParameters / lateralPlan).  The source updates these in sequence with
independent per-topic guards; they touch pairwise disjoint fields, so they
are written here as one parallel record update. -/
def us_copies (s : UIState) (sm : SubSnapshot) : UIState :=
  { s with scene := { s.scene with
      gpsLocationExternal :=
        if sm.updated_gpsLocationExternal then sm.gpsLocationExternal_payload
        else s.scene.gpsLocationExternal,
      deviceState :=
        if sm.updated_deviceState then sm.deviceState_payload else s.scene.deviceState,
      controls_state :=
        if s.scene.started && sm.updated_controlsState then sm.controlsState
        else s.scene.controls_state,
      alert :=
        if s.scene.started && sm.updated_controlsState then
          ⟨sm.controlsState.alertTextMsg1, sm.controlsState.alertTextMsg2,
           sm.controlsState.alertTextMsg3⟩
        else s.scene.alert,
      car_state := if sm.updated_carState then sm.carState else s.scene.car_state,
      scr := { s.scene.scr with
        awake := if sm.updated_carState then sm.carState.cruiseSwState
                 else s.scene.scr.awake,
        map_is_running := if sm.updated_liveNaviData then sm.liveNaviData_mapEnable
                          else s.scene.scr.map_is_running },
      liveNaviData := if sm.updated_liveNaviData then sm.liveNaviData_payload
                      else s.scene.liveNaviData,
      liveParameters := if sm.updated_liveParameters then sm.liveParameters_payload
                        else s.scene.liveParameters,
      lateralPlan := if sm.updated_lateralPlan then sm.lateralPlan_payload
                     else s.scene.lateralPlan } }

/-- `update_state`: the per-topic branches applied in source order. -/
def update_state (s : UIState) (sm : SubSnapshot) (hw : HardwareFlags) : UIState :=
  us_copies (us_started (us_camera (us_sensors (us_carparams (us_panda (us_calib
    (us_radar (us_model (us_engage (us_time s sm) sm) sm) sm) sm) sm) sm) sm) sm hw) sm) sm

/-- The persisted settings read by `update_status`
(`Params().getBool(...)`). -/
structure ParamsSnapshot where
  end_to_end : Bool
  enable_wide_camera : Bool
deriving DecidableEq

/-- `update_status`, first block: map alert severity to status while
started with fresh controls state. -/
def update_status_alert (s : UIState) (sm : SubSnapshot) : UIState :=
  if s.scene.started && sm.updated_controlsState then
    { s with status :=
        match sm.controlsState.alert_status with
        | AlertStatus.userPrompt => UIStatus.warning
        | AlertStatus.critical => UIStatus.alert
        | AlertStatus.normal =>
          if sm.controlsState.enabled then UIStatus.engaged else UIStatus.disengaged }
  else s

/-- `update_status`, second block: handle the onroad/offroad transition
against the function-local `static bool started_prev` (modelled as
`UIState.started_prev`). -/
def update_status_transition (s : UIState) (sm : SubSnapshot) (p : ParamsSnapshot)
    (hw : HardwareFlags) : UIState :=
  if s.scene.started ≠ s.started_prev then
    let s2 :=
      if s.scene.started then
        { s with
            status := UIStatus.disengaged,
            wide_camera := if hw.tici then p.enable_wide_camera else false,
            scene := { s.scene with
              started_frame := sm.frame,
              end_to_end := p.end_to_end } }
      else s
    { s2 with
        scene := { s2.scene with world_objects_visible := false },
        started_prev := s2.scene.started }
  else
    { s with started_prev := s.scene.started }

/-- `update_status`: the two blocks in source order. -/
def update_status (s : UIState) (sm : SubSnapshot) (p : ParamsSnapshot)
    (hw : HardwareFlags) : UIState :=
  update_status_transition (update_status_alert s sm) sm p hw

/-- One tick of `QUIState::update` restricted to its state effect:
`update_state` then `update_status` (the transport poll and the external
signal emissions have no effect on `UIState`). -/
def ui_update (s : UIState) (sm : SubSnapshot) (p : ParamsSnapshot)
    (hw : HardwareFlags) : UIState :=
  update_status (update_state s sm hw) sm p hw

/-- The persistent state of `Device` relevant to `setAwake`. -/
structure DeviceState where
  awake : Bool
  awake_timeout : ℤ
deriving DecidableEq

/-- The outcome of one `Device::setAwake` call: the new device state, the
new `scene.scr.nTime`, and the externally visible effects
(`Hardware::set_display_power` and the `displayPowerChanged` signal),
each `none` when not performed. -/
structure SetAwakeResult where
  device : DeviceState
  nTime : ℤ
  set_display_power : Option Bool
  displayPowerChanged : Option Bool
deriving DecidableEq

/-- `Device::setAwake`: on a wake/sleep edge the awake flag always flips,
but the display-power call and the `displayPowerChanged` emission happen
only when ignition is present or the auto-screen-off feature is disabled
(`scr.autoScreenOff == 0`); a reset reloads the awake countdown and the
manual screen timer. -/
def setAwake (d : DeviceState) (ignition : Bool) (scr : ScrState)
    (on_flag reset : Bool) : SetAwakeResult :=
  let r1 : SetAwakeResult :=
    if on_flag ≠ d.awake then
      if ignition || scr.autoScreenOff = 0 then
        { device := { d with awake := on_flag }, nTime := scr.nTime,
          set_display_power := some on_flag, displayPowerChanged := some on_flag }
      else
        { device := { d with awake := on_flag }, nTime := scr.nTime,
          set_display_power := none, displayPowerChanged := none }
    else
      { device := d, nTime := scr.nTime,
        set_display_power := none, displayPowerChanged := none }
  if reset then
    { r1 with
        device := { r1.device with awake_timeout := 30 * (UI_FREQ : ℤ) },
        nTime := scr.autoScreenOff * 60 * (UI_FREQ : ℤ) }
  else r1

/-- The fields of `UIState` that `calib_frame_to_full_frame` reads
(collected for congruence reasoning across the update stages). -/
structure ProjParams where
  view_from_calib : Mat3
  wide_camera : Bool
  fcam : Mat3
  ecam : Mat3
  transform : QTransform
  fb_w : ℚ
  fb_h : ℚ
deriving DecidableEq

/-- Projection-relevant view of a `UIState`. -/
def UIState.projParams (s : UIState) : ProjParams :=
  ⟨s.scene.view_from_calib, s.wide_camera, s.fcam_intrinsic_matrix,
   s.ecam_intrinsic_matrix, s.car_space_transform, s.fb_w, s.fb_h⟩

/-- The lead-shortened visibility distance: the raw model distance clamped
to the configured range and, when a confident lead is present, further
shortened to twice the lead distance minus the damped margin, never below
zero.  In the source this rule is applied to the driving path only; claim
C2 and the spec's edge-policy sentence assert that the lane-line/road-edge
`max_idx` is computed from this same shortened distance, so this
definition doubles as the spec-side reading for that comparison. -/
def path_visibility_distance (model : ModelDataV2) (lead_one : LeadData) : ℚ :=
  let max_distance := clampQ (model.position.x (TRAJECTORY_SIZE - 1))
                             MIN_DRAW_DISTANCE MAX_DRAW_DISTANCE
  if lead_one.status then
    let lead_d := lead_one.dRel * 2
    clampQ (lead_d - min (lead_d * 0.35) 10) 0 max_distance
  else max_distance

/-- A concrete scene with inert contents, identity calibration. -/
def scene0 : UIScene :=
  { view_from_calib := idMat3,
    lane_line_vertices := fun _ => [],
    lane_line_probs := fun _ => 0,
    road_edge_vertices := fun _ => [],
    road_edge_stds := fun _ => 0,
    track_vertices := [],
    lead_vertices := fun _ => ⟨0, 0⟩,
    engageable := false, dm_active := false,
    world_objects_visible := false,
    pandaType := PandaType.unknown,
    ignition := false, longitudinal_control := false,
    accel_sensor := 0, gyro_sensor := 0, light_sensor := 0,
    started := false, started_frame := 0, end_to_end := false,
    IsOpenpilotViewEnabled := false, is_metric := false,
    gpsLocationExternal := 0, deviceState := 0,
    controls_state := ⟨AlertStatus.normal, false, false, 0, 0, 0⟩,
    alert := ⟨0, 0, 0⟩,
    car_state := ⟨0, 0⟩,
    scr := ⟨0, 0, 0, 0, false⟩,
    liveNaviData := 0, liveParameters := 0, lateralPlan := 0 }

/-- A concrete UI state: identity calibration and intrinsics, identity
car-space transform, a 100×100 frame buffer, narrow camera, live NanoVG
handle. -/
def S0 : UIState :=
  { scene := scene0,
    status := UIStatus.disengaged,
    fb_w := 100, fb_h := 100,
    wide_camera := false,
    car_space_transform := idTransform,
    fcam_intrinsic_matrix := idMat3,
    ecam_intrinsic_matrix := idMat3,
    vg := true, running_time := 0, started_prev := false }

/-- A concrete centerline: forward coordinate `i`, lateral 0, height 1. -/
def LINE0 : XYZT := ⟨fun i => (i : ℚ), fun _ => 0, fun _ => 1⟩

/-- A concrete model payload built from `LINE0`. -/
def M0 : ModelDataV2 :=
  { position := LINE0,
    lane_lines := fun _ => LINE0,
    lane_line_probs := fun _ => 1,
    road_edges := fun _ => LINE0,
    road_edge_stds := fun _ => 0 }

/-- A concrete model payload whose vertical profile sits at height 10. -/
def M10 : ModelDataV2 :=
  { position := ⟨fun i => (i : ℚ), fun _ => 0, fun _ => 10⟩,
    lane_lines := fun _ => LINE0,
    lane_line_probs := fun _ => 1,
    road_edges := fun _ => LINE0,
    road_edge_stds := fun _ => 0 }

/-- A confident lead 10 m ahead, centered. -/
def LEAD10 : LeadData := ⟨true, 10, 0⟩

/-- A radar payload with a confident lead 1 m ahead and no second lead. -/
def RADAR1 : RadarState := ⟨⟨true, 1, 0⟩, ⟨false, 0, 0⟩⟩

/-- A concrete transport snapshot with no fresh topics and inert payloads. -/
def SM0 : SubSnapshot :=
  { frame := 7,
    nanos_since_boot := 0,
    updated_modelV2 := false,
    updated_radarState := false,
    updated_liveCalibration := false,
    updated_pandaStates := false,
    updated_carParams := false,
    updated_sensorEvents := false,
    updated_roadCameraState := false,
    updated_controlsState := false,
    updated_gpsLocationExternal := false,
    updated_deviceState := false,
    updated_carState := false,
    updated_liveNaviData := false,
    updated_liveParameters := false,
    updated_lateralPlan := false,
    rcv_frame_modelV2 := 0,
    rcv_frame_pandaStates := 0,
    modelV2 := M0,
    radarState := ⟨⟨false, 0, 0⟩, ⟨false, 0, 0⟩⟩,
    calib_view_from_calib := idMat3,
    pandaStates := [],
    carParams_longitudinal := false,
    sensorEvents := [],
    camera_gain := 0,
    camera_integ_lines := 0,
    deviceState_started := false,
    deviceState_started_mono := 0,
    deviceState_payload := 0,
    controlsState := ⟨AlertStatus.normal, false, false, 0, 0, 0⟩,
    dm_active := false,
    gpsLocationExternal_payload := 0,
    carState := ⟨0, 0⟩,
    liveNaviData_payload := 0,
    liveNaviData_mapEnable := false,
    liveParameters_payload := 0,
    lateralPlan_payload := 0 }

/-- Hardware flags: neither EON nor TICI. -/
def HW0 : HardwareFlags := ⟨false, false⟩

/-- A screen-control state with the auto-screen-off feature enabled. -/
def SCR1 : ScrState := ⟨0, 1, 0, 0, false⟩

/-- A device that is currently asleep. -/
def DEV0 : DeviceState := ⟨false, 0⟩

/-- A snapshot with a fresh radar sample, a stored (but not fresh) model
sample whose vertical profile sits at height 10, and a confident lead 1 m
ahead. -/
def SM7 : SubSnapshot :=
  { SM0 with
      updated_radarState := true,
      rcv_frame_modelV2 := 1,
      modelV2 := M10,
      radarState := RADAR1 }

/-- A snapshot whose hardware-link topic has been silent for 200 ticks. -/
def SM4 : SubSnapshot := { SM0 with frame := 200 }

/-- A snapshot that reports the device as started. -/
def SM6 : SubSnapshot := { SM0 with deviceState_started := true }

/-- A UI state in the "always show" debug view mode. -/
def S6 : UIState := { S0 with scene := { scene0 with IsOpenpilotViewEnabled := true } }

/-- A UI state one tick after being started (for the falling edge). -/
def S10 : UIState := { S0 with started_prev := true }

/-- A concrete params snapshot with both toggles set. -/
def P1 : ParamsSnapshot := ⟨true, true⟩

section Proofs

attribute [local semireducible] Rat.add Rat.sub Rat.mul Rat.inv Rat.ofScientific

/-- The scan's result never drops below its accumulator (as long as the
accumulator is at most the cursor). -/
theorem pathLengthScan_lower (x : ℕ → ℚ) (lim : ℚ) :
    ∀ (fuel i m : ℕ), m ≤ i → m ≤ pathLengthScan x lim fuel i m := by
  intro fuel
  induction fuel with
  | zero => intro i m _; exact le_refl m
  | succ fuel ih =>
    intro i m hmi
    rw [pathLengthScan]
    split
    · exact le_trans hmi (ih (i + 1) i (Nat.le_succ i))
    · exact le_refl m

/-- The scan is monotone in the distance limit. -/
theorem pathLengthScan_mono (x : ℕ → ℚ) {lim lim2 : ℚ} (h : lim ≤ lim2) :
    ∀ (fuel i m : ℕ), m ≤ i →
      pathLengthScan x lim fuel i m ≤ pathLengthScan x lim2 fuel i m := by
  intro fuel
  induction fuel with
  | zero => intro i m _; exact le_refl m
  | succ fuel ih =>
    intro i m hmi
    rw [pathLengthScan, pathLengthScan]
    by_cases h1 : i < TRAJECTORY_SIZE ∧ x i < lim
    · rw [if_pos h1, if_pos ⟨h1.1, lt_of_lt_of_le h1.2 h⟩]
      exact ih (i + 1) i (Nat.le_succ i)
    · rw [if_neg h1]
      split
      · exact le_trans hmi (pathLengthScan_lower x lim2 fuel (i + 1) i (Nat.le_succ i))
      · exact le_refl m

/-- The scan's result stays below `TRAJECTORY_SIZE` when started there. -/
theorem pathLengthScan_lt_size (x : ℕ → ℚ) (lim : ℚ) :
    ∀ (fuel i m : ℕ), m < TRAJECTORY_SIZE →
      pathLengthScan x lim fuel i m < TRAJECTORY_SIZE := by
  intro fuel
  induction fuel with
  | zero => intro i m hm; exact hm
  | succ fuel ih =>
    intro i m hm
    rw [pathLengthScan]
    split
    · next h1 => exact ih (i + 1) i h1.1
    · exact hm

/-- The scan's result indexes a coordinate strictly below the limit,
provided its accumulator does. -/
theorem pathLengthScan_lt_lim (x : ℕ → ℚ) (lim : ℚ) :
    ∀ (fuel i m : ℕ), x m < lim → x (pathLengthScan x lim fuel i m) < lim := by
  intro fuel
  induction fuel with
  | zero => intro i m hm; exact hm
  | succ fuel ih =>
    intro i m hm
    rw [pathLengthScan]
    split
    · next h1 => exact ih (i + 1) i h1.2
    · exact hm

/-- Maximality of the scan's result for a monotone coordinate sequence:
any in-range index whose coordinate is below the limit is at most the
result. -/
theorem pathLengthScan_max (x : ℕ → ℚ) (lim : ℚ)
    (hmono : ∀ j, j < TRAJECTORY_SIZE → ∀ i, i ≤ j → x i ≤ x j) :
    ∀ (fuel i m : ℕ), TRAJECTORY_SIZE + 1 ≤ fuel + i →
      (∀ j, j < i → j < TRAJECTORY_SIZE → x j < lim → j ≤ m) →
      ∀ j, j < TRAJECTORY_SIZE → x j < lim → j ≤ pathLengthScan x lim fuel i m := by
  intro fuel
  induction fuel with
  | zero =>
    intro i m hfuel hinv j hj hxj
    exact hinv j (by omega) hj hxj
  | succ fuel ih =>
    intro i m hfuel hinv j hj hxj
    rw [pathLengthScan]
    by_cases h1 : i < TRAJECTORY_SIZE ∧ x i < lim
    · rw [if_pos h1]
      exact ih (i + 1) i (by omega) (fun k hk _ _ => by omega) j hj hxj
    · rw [if_neg h1]
      by_cases hiT : i < TRAJECTORY_SIZE
      · have hxi : ¬ x i < lim := fun hxi => h1 ⟨hiT, hxi⟩
        by_cases hji : j < i
        · exact hinv j hji hj hxj
        · exact absurd (lt_of_le_of_lt (hmono j hj i (by omega)) hxj) hxi
      · exact hinv j (by omega) hj hxj

/-- `filterMap` keeps every element when the function never fails. -/
theorem length_filterMap_of_isSome {α β : Type} (f : α → Option β) :
    ∀ (l : List α), (∀ a ∈ l, (f a).isSome = true) →
      (l.filterMap f).length = l.length := by
  intro l
  induction l with
  | nil => intro _; rfl
  | cons a l ih =>
    intro h
    rw [List.filterMap_cons]
    cases hfa : f a with
    | none =>
      exact absurd (h a (List.mem_cons_self a l)) (by simp [hfa])
    | some b =>
      simp only [List.length_cons, ih (fun a ha => h a (List.mem_cons_of_mem _ ha))]

/-- Exact vertex count of the ribbon when every offset point up to
`max_idx` passes the clip test. -/
theorem update_line_data_length_of_clip (s : UIState) (line : XYZT)
    (y_off z_off : ℚ) (max_idx : ℕ)
    (hL : ∀ i, i ≤ max_idx →
      (calib_frame_to_full_frame s (line.x i) (line.y i - y_off) (line.z i + z_off)).isSome = true)
    (hR : ∀ i, i ≤ max_idx →
      (calib_frame_to_full_frame s (line.x i) (line.y i + y_off) (line.z i + z_off)).isSome = true) :
    (update_line_data s line y_off z_off max_idx).length = 2 * (max_idx + 1) := by
  unfold update_line_data
  rw [List.length_append]
  rw [length_filterMap_of_isSome _ _
    (fun i hi => hL i (by have := List.mem_range.mp hi; omega))]
  rw [length_filterMap_of_isSome _ _
    (fun i hi => hR i (by have := List.mem_range.mp (List.mem_reverse.mp hi); omega))]
  rw [List.length_range, List.length_reverse, List.length_range]
  omega

/-- C8: for every invocation of the Polyline Builder with `max_idx` at
most `TRAJECTORY_SIZE - 1`, the resulting vertex count is at most
`2*(max_idx+1)` and never exceeds the polyline's fixed capacity, so the
count assertion holds and no write goes past the vertex array's end. -/
theorem c8_line_data_capacity (s : UIState) (line : XYZT) (y_off z_off : ℚ)
    (max_idx : ℕ) (h : max_idx ≤ TRAJECTORY_SIZE - 1) :
    (update_line_data s line y_off z_off max_idx).length ≤ 2 * (max_idx + 1) ∧
    (update_line_data s line y_off z_off max_idx).length ≤ LINE_VERTICES_CAPACITY := by
  have hb : (update_line_data s line y_off z_off max_idx).length ≤ 2 * (max_idx + 1) := by
    unfold update_line_data
    rw [List.length_append]
    have h1 := List.length_filterMap_le
      (fun i => calib_frame_to_full_frame s (line.x i) (line.y i - y_off) (line.z i + z_off))
      (List.range (max_idx + 1))
    have h2 := List.length_filterMap_le
      (fun i => calib_frame_to_full_frame s (line.x i) (line.y i + y_off) (line.z i + z_off))
      (List.range (max_idx + 1)).reverse
    rw [List.length_range] at h1
    rw [List.length_reverse, List.length_range] at h2
    omega
  refine ⟨hb, le_trans hb ?_⟩
  have hT : TRAJECTORY_SIZE = 33 := rfl
  unfold LINE_VERTICES_CAPACITY
  omega

/-- Witness for C8 at a concrete ribbon. -/
theorem c8_line_data_capacity_witness :
    (update_line_data S0 LINE0 (1/40) 0 32).length ≤ 2 * (32 + 1) ∧
    (update_line_data S0 LINE0 (1/40) 0 32).length ≤ LINE_VERTICES_CAPACITY :=
  c8_line_data_capacity S0 LINE0 (1/40) 0 32 (by decide)

/-- C5: for a monotonically increasing forward-coordinate sequence, the
path-length index is the last in-range index whose coordinate is strictly
below the limit, and on the sequence `0,1,2,…` with limit `5.5` it is 5. -/
theorem c5_path_length_idx (x : ℕ → ℚ) (lim : ℚ) (j : ℕ)
    (hmono : ∀ j2, j2 < TRAJECTORY_SIZE → ∀ i, i ≤ j2 → x i ≤ x j2)
    (h0 : x 0 < lim) (hj : j < TRAJECTORY_SIZE) (hxj : x j < lim) :
    (x (get_path_length_idx x lim) < lim ∧
     get_path_length_idx x lim < TRAJECTORY_SIZE ∧
     j ≤ get_path_length_idx x lim) ∧
    get_path_length_idx (fun i => (i : ℚ)) (11/2) = 5 := by
  refine ⟨⟨?_, ?_, ?_⟩, by decide⟩
  · exact pathLengthScan_lt_lim x lim (TRAJECTORY_SIZE + 1) 0 0 h0
  · exact pathLengthScan_lt_size x lim (TRAJECTORY_SIZE + 1) 0 0 (by decide)
  · exact pathLengthScan_max x lim hmono (TRAJECTORY_SIZE + 1) 0 0 (by omega)
      (fun k hk _ _ => by omega) j hj hxj

/-- Witness for C5 on the sequence `0,1,2,…` with limit `5.5`. -/
theorem c5_path_length_idx_witness :
    (((5 : ℚ) : ℚ) < 11/2 ∧
     get_path_length_idx (fun i => (i : ℚ)) (11/2) < TRAJECTORY_SIZE ∧
     3 ≤ get_path_length_idx (fun i => (i : ℚ)) (11/2)) ∧
    get_path_length_idx (fun i => (i : ℚ)) (11/2) = 5 := by
  have h := c5_path_length_idx (fun i => (i : ℚ)) (11/2) 3
    (by intro j2 _ i hij; show (i : ℚ) ≤ (j2 : ℚ); exact_mod_cast hij)
    (by decide) (by decide) (by decide)
  exact ⟨⟨by decide, h.1.2.1, h.1.2.2⟩, h.2⟩

/-- Monotonicity of the path-length index in the distance limit. -/
theorem get_path_length_idx_mono (x : ℕ → ℚ) {d d2 : ℚ} (h : d ≤ d2) :
    get_path_length_idx x d ≤ get_path_length_idx x d2 :=
  pathLengthScan_mono x h (TRAJECTORY_SIZE + 1) 0 0 (le_refl 0)

/-- The path-length index is always within the trajectory. -/
theorem get_path_length_idx_lt_size (x : ℕ → ℚ) (d : ℚ) :
    get_path_length_idx x d < TRAJECTORY_SIZE :=
  pathLengthScan_lt_size x d (TRAJECTORY_SIZE + 1) 0 0 (by decide)

/-- C9: for a fixed centerline all of whose offset points pass the clip
test, increasing the visibility distance never decreases the vertex count
of the polyline built from it. -/
theorem c9_monotonic_truncation (s : UIState) (line : XYZT) (y_off z_off d d2 : ℚ)
    (hclip : ∀ i, i < TRAJECTORY_SIZE →
      (calib_frame_to_full_frame s (line.x i) (line.y i - y_off) (line.z i + z_off)).isSome = true ∧
      (calib_frame_to_full_frame s (line.x i) (line.y i + y_off) (line.z i + z_off)).isSome = true)
    (hd : d ≤ d2) :
    (update_line_data s line y_off z_off (get_path_length_idx line.x d)).length ≤
    (update_line_data s line y_off z_off (get_path_length_idx line.x d2)).length := by
  have hlt := get_path_length_idx_lt_size line.x d
  have hlt2 := get_path_length_idx_lt_size line.x d2
  rw [update_line_data_length_of_clip s line y_off z_off _
        (fun i hi => (hclip i (by omega)).1) (fun i hi => (hclip i (by omega)).2),
      update_line_data_length_of_clip s line y_off z_off _
        (fun i hi => (hclip i (by omega)).1) (fun i hi => (hclip i (by omega)).2)]
  have := get_path_length_idx_mono line.x hd
  omega

/-- Witness for C9 at a concrete unclipped centerline. -/
theorem c9_monotonic_truncation_witness :
    (update_line_data S0 LINE0 (1/40) 0 (get_path_length_idx LINE0.x 3)).length ≤
    (update_line_data S0 LINE0 (1/40) 0 (get_path_length_idx LINE0.x 7)).length :=
  c9_monotonic_truncation S0 LINE0 (1/40) 0 3 7 (by decide) (by decide)

/-- The clip rectangle of `calib_frame_to_full_frame` contains a point
exactly when the point lies in the closed box
`[-500, fb_w+500] × [-500, fb_h+500]`, for nonnegative frame bounds. -/
theorem contains_clip_iff (fw fh : ℚ) (hw : 0 ≤ fw) (hh : 0 ≤ fh) (p : QPointF) :
    QRectF.contains ⟨-500, -500, fw + 2 * 500, fh + 2 * 500⟩ p = true ↔
    (-500 ≤ p.x ∧ p.x ≤ fw + 500 ∧ -500 ≤ p.y ∧ p.y ≤ fh + 500) := by
  unfold QRectF.contains
  have h1 : ¬ (fw + 2 * 500 : ℚ) < 0 := by intro h; linarith
  have h2 : ¬ (fh + 2 * 500 : ℚ) < 0 := by intro h; linarith
  simp only [if_neg h1, if_neg h2]
  have h3 : ¬ ((-500 : ℚ) = -500 + (fw + 2 * 500)) := by intro h; linarith
  have h4 : ¬ ((-500 : ℚ) = -500 + (fh + 2 * 500)) := by intro h; linarith
  rw [if_neg h3]
  by_cases hx : p.x < -500 ∨ -500 + (fw + 2 * 500) < p.x
  · rw [if_pos hx]
    simp only [Bool.false_eq_true, false_iff]
    intro hmem
    rcases hx with hx | hx
    · linarith [hmem.1]
    · linarith [hmem.2.1]
  · rw [if_neg hx, if_neg h4]
    push_neg at hx
    by_cases hy : p.y < -500 ∨ -500 + (fh + 2 * 500) < p.y
    · rw [if_pos hy]
      simp only [Bool.false_eq_true, false_iff]
      intro hmem
      rcases hy with hy | hy
      · linarith [hmem.2.2.1]
      · linarith [hmem.2.2.2]
    · rw [if_neg hy]
      push_neg at hy
      simp only [true_iff]
      exact ⟨hx.1, by linarith [hx.2], hy.1, by linarith [hy.2]⟩

/-- C1: the Geometry Projector returns the projected coordinate (valid)
exactly when that coordinate lies inside the clip rectangle spanning
`[-500, fb_w+500] × [-500, fb_h+500]`, and returns invalid — leaving the
output vertex unwritten — for any coordinate outside it. -/
theorem c1_projector_clip (s : UIState) (in_x in_y in_z : ℚ)
    (hw : 0 ≤ s.fb_w) (hh : 0 ≤ s.fb_h) :
    (calib_frame_to_full_frame s in_x in_y in_z =
        some (car_space_point s in_x in_y in_z) ↔
      (-500 ≤ (car_space_point s in_x in_y in_z).x ∧
       (car_space_point s in_x in_y in_z).x ≤ s.fb_w + 500 ∧
       -500 ≤ (car_space_point s in_x in_y in_z).y ∧
       (car_space_point s in_x in_y in_z).y ≤ s.fb_h + 500)) ∧
    (¬ (-500 ≤ (car_space_point s in_x in_y in_z).x ∧
        (car_space_point s in_x in_y in_z).x ≤ s.fb_w + 500 ∧
        -500 ≤ (car_space_point s in_x in_y in_z).y ∧
        (car_space_point s in_x in_y in_z).y ≤ s.fb_h + 500) →
      calib_frame_to_full_frame s in_x in_y in_z = none) := by
  have hiff := contains_clip_iff s.fb_w s.fb_h hw hh (car_space_point s in_x in_y in_z)
  unfold calib_frame_to_full_frame
  by_cases hc : QRectF.contains
      ⟨-500, -500, s.fb_w + 2 * 500, s.fb_h + 2 * 500⟩
      (car_space_point s in_x in_y in_z) = true
  · rw [if_pos hc]
    exact ⟨⟨fun _ => hiff.mp hc, fun _ => rfl⟩, fun hn => absurd (hiff.mp hc) hn⟩
  · rw [if_neg hc]
    exact ⟨⟨fun h => Option.noConfusion h, fun hmem => absurd (hiff.mpr hmem) hc⟩,
           fun _ => rfl⟩

/-- Witness for C1: a concrete in-clip point is accepted and returned. -/
theorem c1_projector_clip_witness :
    calib_frame_to_full_frame S0 1 0 2 = some (car_space_point S0 1 0 2) :=
  (c1_projector_clip S0 1 0 2 (by decide) (by decide)).1.mpr (by decide)

/-- C2 (amended): the `max_idx` used for the lane-line and road-edge
polylines is computed from the visibility distance clamped to the
configured draw-distance range only; the lead-vehicle shortening is
applied afterwards and affects only the driving path's `max_idx`. -/
theorem c2_amended_lane_edge_idx (s : UIState) (model : ModelDataV2)
    (lead_one : LeadData) :
    (∀ i, (update_model s model lead_one).scene.lane_line_vertices i =
        update_line_data s (model.lane_lines i) (0.025 * model.lane_line_probs i) 0
          (get_path_length_idx (model.lane_lines 0).x
            (clampQ (model.position.x (TRAJECTORY_SIZE - 1))
              MIN_DRAW_DISTANCE MAX_DRAW_DISTANCE))) ∧
    (∀ i, (update_model s model lead_one).scene.road_edge_vertices i =
        update_line_data s (model.road_edges i) 0.025 0
          (get_path_length_idx (model.lane_lines 0).x
            (clampQ (model.position.x (TRAJECTORY_SIZE - 1))
              MIN_DRAW_DISTANCE MAX_DRAW_DISTANCE))) ∧
    ((update_model s model lead_one).scene.track_vertices =
        update_line_data s model.position 0.5 1.22
          (get_path_length_idx model.position.x
            (path_visibility_distance model lead_one))) :=
  ⟨fun _ => rfl, fun _ => rfl, rfl⟩

/-- C2 counterexample: with a confident lead 10 m ahead, the lane-line
polyline actually built by `update_model` differs from the one that the
claimed lead-shortened visibility distance would produce. -/
theorem c2_lane_edge_idx_counterexample :
    LEAD10.status = true ∧
    (update_model S0 M0 LEAD10).scene.lane_line_vertices 0 ≠
      update_line_data S0 (M0.lane_lines 0) (0.025 * M0.lane_line_probs 0) 0
        (get_path_length_idx (M0.lane_lines 0).x
          (path_visibility_distance M0 LEAD10)) := by
  constructor
  · rfl
  · decide

/-- C3 (amended): a wake/sleep edge emits the display-power-change
notification exactly when ignition is present or the auto-screen-off
feature is disabled; in every case the awake flag itself ends up at the
requested value. -/
theorem c3_amended_wake_edge_emission (d : DeviceState) (ign : Bool)
    (scr : ScrState) (on_flag reset : Bool) :
    (setAwake d ign scr on_flag reset).displayPowerChanged =
      (if on_flag ≠ d.awake ∧ (ign = true ∨ scr.autoScreenOff = 0)
       then some on_flag else none) ∧
    (setAwake d ign scr on_flag reset).device.awake = on_flag := by
  unfold setAwake
  by_cases h1 : on_flag ≠ d.awake
  · rw [if_pos h1]
    by_cases h2 : (ign || decide (scr.autoScreenOff = 0)) = true
    · rw [if_pos h2]
      have h3 : on_flag ≠ d.awake ∧ (ign = true ∨ scr.autoScreenOff = 0) :=
        ⟨h1, by simpa using h2⟩
      cases reset <;> simp [if_pos h3]
    · rw [if_neg h2]
      have h3 : ¬ (on_flag ≠ d.awake ∧ (ign = true ∨ scr.autoScreenOff = 0)) := by
        intro h
        exact h2 (by simpa using h.2)
      cases reset <;> simp [if_neg h3]
  · rw [if_neg h1]
    have h3 : ¬ (on_flag ≠ d.awake ∧ (ign = true ∨ scr.autoScreenOff = 0)) :=
      fun h => h.1 (by simpa using h1)
    have h4 : on_flag = d.awake := by simpa using h1
    cases reset <;> simp [if_neg h3, h4]

/-- C3 counterexample: with ignition off and auto-screen-off enabled, a
sleep-to-wake edge flips the awake flag but emits no
display-power-change notification. -/
theorem c3_wake_edge_counterexample :
    (true ≠ DEV0.awake) ∧
    (setAwake DEV0 false SCR1 true false).device.awake = true ∧
    (setAwake DEV0 false SCR1 true false).displayPowerChanged = none := by decide

/-- The running-time stage leaves the scene untouched. -/
theorem us_time_scene (s : UIState) (sm : SubSnapshot) :
    (us_time s sm).scene = s.scene := rfl

/-- The running-time stage keeps the projection parameters. -/
theorem us_time_projParams (s : UIState) (sm : SubSnapshot) :
    (us_time s sm).projParams = s.projParams := rfl

/-- The running-time stage keeps the graphics handle. -/
theorem us_time_vg (s : UIState) (sm : SubSnapshot) : (us_time s sm).vg = s.vg := rfl

/-- The running-time stage keeps the transition flag. -/
theorem us_time_started_prev (s : UIState) (sm : SubSnapshot) :
    (us_time s sm).started_prev = s.started_prev := rfl

/-- The engageability stage keeps the hardware-link type. -/
theorem us_engage_pandaType (s : UIState) (sm : SubSnapshot) :
    (us_engage s sm).scene.pandaType = s.scene.pandaType := by
  unfold us_engage; split <;> rfl

/-- The engageability stage keeps the lead markers. -/
theorem us_engage_lead_vertices (s : UIState) (sm : SubSnapshot) :
    (us_engage s sm).scene.lead_vertices = s.scene.lead_vertices := by
  unfold us_engage; split <;> rfl

/-- The engageability stage keeps the visibility flag. -/
theorem us_engage_wov (s : UIState) (sm : SubSnapshot) :
    (us_engage s sm).scene.world_objects_visible = s.scene.world_objects_visible := by
  unfold us_engage; split <;> rfl

/-- The engageability stage keeps the projection parameters. -/
theorem us_engage_projParams (s : UIState) (sm : SubSnapshot) :
    (us_engage s sm).projParams = s.projParams := by
  unfold us_engage; split <;> rfl

/-- The engageability stage keeps the graphics handle. -/
theorem us_engage_vg (s : UIState) (sm : SubSnapshot) : (us_engage s sm).vg = s.vg := by
  unfold us_engage; split <;> rfl

/-- The engageability stage keeps the transition flag. -/
theorem us_engage_started_prev (s : UIState) (sm : SubSnapshot) :
    (us_engage s sm).started_prev = s.started_prev := by
  unfold us_engage; split <;> rfl

/-- The model stage keeps the hardware-link type. -/
theorem us_model_pandaType (s : UIState) (sm : SubSnapshot) :
    (us_model s sm).scene.pandaType = s.scene.pandaType := by
  unfold us_model; split <;> rfl

/-- The model stage keeps the lead markers. -/
theorem us_model_lead_vertices (s : UIState) (sm : SubSnapshot) :
    (us_model s sm).scene.lead_vertices = s.scene.lead_vertices := by
  unfold us_model; split <;> rfl

/-- The model stage keeps the visibility flag. -/
theorem us_model_wov (s : UIState) (sm : SubSnapshot) :
    (us_model s sm).scene.world_objects_visible = s.scene.world_objects_visible := by
  unfold us_model; split <;> rfl

/-- The model stage keeps the projection parameters. -/
theorem us_model_projParams (s : UIState) (sm : SubSnapshot) :
    (us_model s sm).projParams = s.projParams := by
  unfold us_model; split <;> rfl

/-- The model stage keeps the graphics handle. -/
theorem us_model_vg (s : UIState) (sm : SubSnapshot) : (us_model s sm).vg = s.vg := by
  unfold us_model; split <;> rfl

/-- The model stage keeps the transition flag. -/
theorem us_model_started_prev (s : UIState) (sm : SubSnapshot) :
    (us_model s sm).started_prev = s.started_prev := by
  unfold us_model; split <;> rfl

/-- The radar stage keeps the hardware-link type. -/
theorem us_radar_pandaType (s : UIState) (sm : SubSnapshot) :
    (us_radar s sm).scene.pandaType = s.scene.pandaType := by
  unfold us_radar; split <;> rfl

/-- The radar stage keeps the visibility flag. -/
theorem us_radar_wov (s : UIState) (sm : SubSnapshot) :
    (us_radar s sm).scene.world_objects_visible = s.scene.world_objects_visible := by
  unfold us_radar; split <;> rfl

/-- The radar stage keeps the transition flag. -/
theorem us_radar_started_prev (s : UIState) (sm : SubSnapshot) :
    (us_radar s sm).started_prev = s.started_prev := by
  unfold us_radar; split <;> rfl

/-- The calibration stage keeps the hardware-link type. -/
theorem us_calib_pandaType (s : UIState) (sm : SubSnapshot) :
    (us_calib s sm).scene.pandaType = s.scene.pandaType := by
  unfold us_calib; split <;> rfl

/-- The calibration stage keeps the lead markers. -/
theorem us_calib_lead_vertices (s : UIState) (sm : SubSnapshot) :
    (us_calib s sm).scene.lead_vertices = s.scene.lead_vertices := by
  unfold us_calib; split <;> rfl

/-- The calibration stage keeps the transition flag. -/
theorem us_calib_started_prev (s : UIState) (sm : SubSnapshot) :
    (us_calib s sm).started_prev = s.started_prev := by
  unfold us_calib; split <;> rfl

/-- The hardware-link stage keeps the lead markers. -/
theorem us_panda_lead_vertices (s : UIState) (sm : SubSnapshot) :
    (us_panda s sm).scene.lead_vertices = s.scene.lead_vertices := by
  unfold us_panda
  split
  · split
    · rfl
    · split <;> rfl
  · split <;> rfl

/-- The hardware-link stage keeps the visibility flag. -/
theorem us_panda_wov (s : UIState) (sm : SubSnapshot) :
    (us_panda s sm).scene.world_objects_visible = s.scene.world_objects_visible := by
  unfold us_panda
  split
  · split
    · rfl
    · split <;> rfl
  · split <;> rfl

/-- The hardware-link stage keeps the transition flag. -/
theorem us_panda_started_prev (s : UIState) (sm : SubSnapshot) :
    (us_panda s sm).started_prev = s.started_prev := by
  unfold us_panda
  split
  · split
    · rfl
    · split <;> rfl
  · split <;> rfl

/-- The car-params stage keeps the hardware-link type. -/
theorem us_carparams_pandaType (s : UIState) (sm : SubSnapshot) :
    (us_carparams s sm).scene.pandaType = s.scene.pandaType := by
  unfold us_carparams; split <;> rfl

/-- The car-params stage keeps the lead markers. -/
theorem us_carparams_lead_vertices (s : UIState) (sm : SubSnapshot) :
    (us_carparams s sm).scene.lead_vertices = s.scene.lead_vertices := by
  unfold us_carparams; split <;> rfl

/-- The car-params stage keeps the visibility flag. -/
theorem us_carparams_wov (s : UIState) (sm : SubSnapshot) :
    (us_carparams s sm).scene.world_objects_visible = s.scene.world_objects_visible := by
  unfold us_carparams; split <;> rfl

/-- The car-params stage keeps the transition flag. -/
theorem us_carparams_started_prev (s : UIState) (sm : SubSnapshot) :
    (us_carparams s sm).started_prev = s.started_prev := by
  unfold us_carparams; split <;> rfl

/-- The sensor-event fold keeps the hardware-link type. -/
theorem sensor_fold_pandaType (l : List SensorEvent) :
    ∀ sc : UIScene, (List.foldl sensor_step sc l).pandaType = sc.pandaType := by
  induction l with
  | nil => intro sc; rfl
  | cons e l ih =>
    intro sc
    rw [List.foldl_cons, ih]
    cases e with
    | acceleration v => simp only [sensor_step]; split <;> rfl
    | gyroUncalibrated v => simp only [sensor_step]; split <;> rfl
    | other => rfl

/-- The sensor-event fold keeps the lead markers. -/
theorem sensor_fold_lead_vertices (l : List SensorEvent) :
    ∀ sc : UIScene, (List.foldl sensor_step sc l).lead_vertices = sc.lead_vertices := by
  induction l with
  | nil => intro sc; rfl
  | cons e l ih =>
    intro sc
    rw [List.foldl_cons, ih]
    cases e with
    | acceleration v => simp only [sensor_step]; split <;> rfl
    | gyroUncalibrated v => simp only [sensor_step]; split <;> rfl
    | other => rfl

/-- The sensor-event fold keeps the visibility flag. -/
theorem sensor_fold_wov (l : List SensorEvent) :
    ∀ sc : UIScene, (List.foldl sensor_step sc l).world_objects_visible =
      sc.world_objects_visible := by
  induction l with
  | nil => intro sc; rfl
  | cons e l ih =>
    intro sc
    rw [List.foldl_cons, ih]
    cases e with
    | acceleration v => simp only [sensor_step]; split <;> rfl
    | gyroUncalibrated v => simp only [sensor_step]; split <;> rfl
    | other => rfl

/-- The sensor stage keeps the hardware-link type. -/
theorem us_sensors_pandaType (s : UIState) (sm : SubSnapshot) :
    (us_sensors s sm).scene.pandaType = s.scene.pandaType := by
  unfold us_sensors
  split
  · exact sensor_fold_pandaType sm.sensorEvents s.scene
  · rfl

/-- The sensor stage keeps the lead markers. -/
theorem us_sensors_lead_vertices (s : UIState) (sm : SubSnapshot) :
    (us_sensors s sm).scene.lead_vertices = s.scene.lead_vertices := by
  unfold us_sensors
  split
  · exact sensor_fold_lead_vertices sm.sensorEvents s.scene
  · rfl

/-- The sensor stage keeps the visibility flag. -/
theorem us_sensors_wov (s : UIState) (sm : SubSnapshot) :
    (us_sensors s sm).scene.world_objects_visible = s.scene.world_objects_visible := by
  unfold us_sensors
  split
  · exact sensor_fold_wov sm.sensorEvents s.scene
  · rfl

/-- The sensor stage keeps the transition flag. -/
theorem us_sensors_started_prev (s : UIState) (sm : SubSnapshot) :
    (us_sensors s sm).started_prev = s.started_prev := by
  unfold us_sensors; split <;> rfl

/-- The camera stage keeps the hardware-link type. -/
theorem us_camera_pandaType (s : UIState) (sm : SubSnapshot) (hw : HardwareFlags) :
    (us_camera s sm hw).scene.pandaType = s.scene.pandaType := by
  unfold us_camera; split <;> rfl

/-- The camera stage keeps the lead markers. -/
theorem us_camera_lead_vertices (s : UIState) (sm : SubSnapshot) (hw : HardwareFlags) :
    (us_camera s sm hw).scene.lead_vertices = s.scene.lead_vertices := by
  unfold us_camera; split <;> rfl

/-- The camera stage keeps the visibility flag. -/
theorem us_camera_wov (s : UIState) (sm : SubSnapshot) (hw : HardwareFlags) :
    (us_camera s sm hw).scene.world_objects_visible = s.scene.world_objects_visible := by
  unfold us_camera; split <;> rfl

/-- The camera stage keeps the transition flag. -/
theorem us_camera_started_prev (s : UIState) (sm : SubSnapshot) (hw : HardwareFlags) :
    (us_camera s sm hw).started_prev = s.started_prev := by
  unfold us_camera; split <;> rfl

/-- The started stage keeps the hardware-link type. -/
theorem us_started_pandaType (s : UIState) (sm : SubSnapshot) :
    (us_started s sm).scene.pandaType = s.scene.pandaType := by
  unfold us_started; split <;> rfl

/-- The started stage keeps the lead markers. -/
theorem us_started_lead_vertices (s : UIState) (sm : SubSnapshot) :
    (us_started s sm).scene.lead_vertices = s.scene.lead_vertices := by
  unfold us_started; split <;> rfl

/-- The started stage keeps the visibility flag. -/
theorem us_started_wov (s : UIState) (sm : SubSnapshot) :
    (us_started s sm).scene.world_objects_visible = s.scene.world_objects_visible := by
  unfold us_started; split <;> rfl

/-- The started stage keeps the transition flag. -/
theorem us_started_started_prev (s : UIState) (sm : SubSnapshot) :
    (us_started s sm).started_prev = s.started_prev := by
  unfold us_started; split <;> rfl

/-- The copy stage keeps the hardware-link type. -/
theorem us_copies_pandaType (s : UIState) (sm : SubSnapshot) :
    (us_copies s sm).scene.pandaType = s.scene.pandaType := rfl

/-- The copy stage keeps the lead markers. -/
theorem us_copies_lead_vertices (s : UIState) (sm : SubSnapshot) :
    (us_copies s sm).scene.lead_vertices = s.scene.lead_vertices := rfl

/-- The copy stage keeps the visibility flag. -/
theorem us_copies_wov (s : UIState) (sm : SubSnapshot) :
    (us_copies s sm).scene.world_objects_visible = s.scene.world_objects_visible := rfl

/-- The copy stage keeps the transition flag. -/
theorem us_copies_started_prev (s : UIState) (sm : SubSnapshot) :
    (us_copies s sm).started_prev = s.started_prev := rfl

/-- `update_state` never touches the transition flag. -/
theorem update_state_started_prev (s : UIState) (sm : SubSnapshot) (hw : HardwareFlags) :
    (update_state s sm hw).started_prev = s.started_prev := by
  unfold update_state
  rw [us_copies_started_prev, us_started_started_prev, us_camera_started_prev,
      us_sensors_started_prev, us_carparams_started_prev, us_panda_started_prev,
      us_calib_started_prev, us_radar_started_prev, us_model_started_prev,
      us_engage_started_prev, us_time_started_prev]

/-- C4: on a tick without a fresh hardware-link sample, the link type is
forced to "unknown" once the silence exceeds `5 × UI_FREQ` ticks, and
retains its previous value while still inside that window. -/
theorem c4_panda_staleness (s : UIState) (sm : SubSnapshot) (hw : HardwareFlags)
    (hfresh : sm.updated_pandaStates = false) :
    (5 * UI_FREQ < sm.frame - sm.rcv_frame_pandaStates →
      (update_state s sm hw).scene.pandaType = PandaType.unknown) ∧
    (sm.frame - sm.rcv_frame_pandaStates ≤ 5 * UI_FREQ →
      (update_state s sm hw).scene.pandaType = s.scene.pandaType) := by
  unfold update_state
  rw [us_copies_pandaType, us_started_pandaType, us_camera_pandaType,
      us_sensors_pandaType, us_carparams_pandaType]
  constructor
  · intro hstale
    unfold us_panda
    rw [if_neg (by simp [hfresh]), if_pos hstale]
  · intro hwin
    unfold us_panda
    rw [if_neg (by simp [hfresh]), if_neg (by omega)]
    rw [us_calib_pandaType, us_radar_pandaType, us_model_pandaType,
        us_engage_pandaType, us_time_scene]

/-- Witness for C4: after 200 silent ticks the link type reads unknown. -/
theorem c4_panda_staleness_witness :
    (update_state S0 SM4 HW0).scene.pandaType = PandaType.unknown :=
  (c4_panda_staleness S0 SM4 HW0 rfl).1 (by decide)

/-- Projection results agree between two states with equal projection
parameters. -/
theorem calib_frame_to_full_frame_congr {s t : UIState}
    (h : s.projParams = t.projParams) :
    calib_frame_to_full_frame s = calib_frame_to_full_frame t := by
  have h1 := congrArg ProjParams.view_from_calib h
  have h2 := congrArg ProjParams.wide_camera h
  have h3 := congrArg ProjParams.fcam h
  have h4 := congrArg ProjParams.ecam h
  have h5 := congrArg ProjParams.transform h
  have h6 := congrArg ProjParams.fb_w h
  have h7 := congrArg ProjParams.fb_h h
  simp only [UIState.projParams] at h1 h2 h3 h4 h5 h6 h7
  funext a b c
  unfold calib_frame_to_full_frame car_space_point
  rw [h1, h2, h3, h4, h5, h6, h7]

/-- Lead-marker updates agree between two states with equal projection
parameters. -/
theorem lead_vertex_update_congr {s t : UIState} (h : s.projParams = t.projParams)
    (prev : QPointF) (lead : LeadData) (line : Option XYZT) :
    lead_vertex_update s prev lead line = lead_vertex_update t prev lead line := by
  unfold lead_vertex_update
  rw [calib_frame_to_full_frame_congr h]

/-- The lead markers produced by `update_leads`, slot by slot. -/
theorem update_leads_lead_vertices (s : UIState) (radar : RadarState)
    (line : Option XYZT) (i : Fin 2) :
    (update_leads s radar line).scene.lead_vertices i =
      lead_vertex_update s (s.scene.lead_vertices i) (radar.lead i) line := rfl

/-- C7 (amended): on a radar-fresh tick each lead marker's vertical
coordinate is looked up from the stored model's z profile whenever any
model sample has ever been received (`rcv_frame > 0`) — not only when the
model is fresh this tick — and defaults to 0 only before the first model
sample arrives. -/
theorem c7_amended_lead_z_lookup (s : UIState) (sm : SubSnapshot) (hw : HardwareFlags)
    (hradar : sm.updated_radarState = true) (hvg : s.vg = true) (i : Fin 2) :
    (update_state s sm hw).scene.lead_vertices i =
      lead_vertex_update s (s.scene.lead_vertices i) (sm.radarState.lead i)
        (if 0 < sm.rcv_frame_modelV2 then some sm.modelV2.position else none) := by
  unfold update_state
  rw [us_copies_lead_vertices, us_started_lead_vertices, us_camera_lead_vertices,
      us_sensors_lead_vertices, us_carparams_lead_vertices, us_panda_lead_vertices,
      us_calib_lead_vertices]
  have hproj : (us_model (us_engage (us_time s sm) sm) sm).projParams = s.projParams := by
    rw [us_model_projParams, us_engage_projParams, us_time_projParams]
  have hlv : (us_model (us_engage (us_time s sm) sm) sm).scene.lead_vertices =
      s.scene.lead_vertices := by
    rw [us_model_lead_vertices, us_engage_lead_vertices, us_time_scene]
  have hvg3 : (us_model (us_engage (us_time s sm) sm) sm).vg = s.vg := by
    rw [us_model_vg, us_engage_vg, us_time_vg]
  unfold us_radar
  rw [if_pos (by rw [hradar, hvg3, hvg]; rfl)]
  rw [update_leads_lead_vertices, hlv]
  exact lead_vertex_update_congr hproj _ _ _

/-- Witness for C7's amended statement at a concrete radar-fresh tick. -/
theorem c7_amended_lead_z_lookup_witness :
    (update_state S0 SM7 HW0).scene.lead_vertices 0 =
      lead_vertex_update S0 (S0.scene.lead_vertices 0) (SM7.radarState.lead 0)
        (if 0 < SM7.rcv_frame_modelV2 then some SM7.modelV2.position else none) :=
  c7_amended_lead_z_lookup S0 SM7 HW0 rfl rfl 0

/-- C7 counterexample: with a stored but not-fresh model sample
(`rcv_frame = 1`, `updated = false`) whose vertical profile sits at 10,
the lead marker actually produced differs from the claim's default-zero
vertical offset. -/
theorem c7_lead_z_counterexample :
    SM7.updated_radarState = true ∧ SM7.updated_modelV2 = false ∧
    SM7.radarState.lead_one.status = true ∧ S0.vg = true ∧
    (update_state S0 SM7 HW0).scene.lead_vertices 0 ≠
      lead_vertex_update S0 (S0.scene.lead_vertices 0) (SM7.radarState.lead 0) none := by
  refine ⟨rfl, rfl, rfl, rfl, ?_⟩
  decide

/-- The alert block leaves the scene untouched. -/
theorem update_status_alert_scene (s : UIState) (sm : SubSnapshot) :
    (update_status_alert s sm).scene = s.scene := by
  unfold update_status_alert; split <;> rfl

/-- The alert block keeps the transition flag. -/
theorem update_status_alert_started_prev (s : UIState) (sm : SubSnapshot) :
    (update_status_alert s sm).started_prev = s.started_prev := by
  unfold update_status_alert; split <;> rfl

/-- The transition block on a rising edge: status reset, drive-start
marker, toggle re-reads, visibility cleared. -/
theorem update_status_transition_rising (u : UIState) (sm : SubSnapshot)
    (p : ParamsSnapshot) (hw : HardwareFlags)
    (h1 : u.scene.started = true) (h2 : u.started_prev = false) :
    (update_status_transition u sm p hw).status = UIStatus.disengaged ∧
    (update_status_transition u sm p hw).scene.started_frame = sm.frame ∧
    (update_status_transition u sm p hw).scene.end_to_end = p.end_to_end ∧
    (update_status_transition u sm p hw).wide_camera =
      (if hw.tici then p.enable_wide_camera else false) ∧
    (update_status_transition u sm p hw).scene.world_objects_visible = false := by
  unfold update_status_transition
  rw [if_pos (show u.scene.started ≠ u.started_prev by
        rw [h1, h2]; exact fun hcon => Bool.noConfusion hcon)]
  rw [if_pos h1]
  exact ⟨rfl, rfl, rfl, rfl, rfl⟩

/-- The transition block clears the visibility flag on any edge. -/
theorem update_status_transition_edge_wov (u : UIState) (sm : SubSnapshot)
    (p : ParamsSnapshot) (hw : HardwareFlags)
    (h : u.scene.started ≠ u.started_prev) :
    (update_status_transition u sm p hw).scene.world_objects_visible = false := by
  unfold update_status_transition
  rw [if_pos h]

/-- The transition block never sets the visibility flag. -/
theorem update_status_transition_wov_false (u : UIState) (sm : SubSnapshot)
    (p : ParamsSnapshot) (hw : HardwareFlags)
    (h : u.scene.world_objects_visible = false) :
    (update_status_transition u sm p hw).scene.world_objects_visible = false := by
  unfold update_status_transition
  split
  · rfl
  · exact h

/-- `update_status` never sets the visibility flag. -/
theorem update_status_wov_false (t : UIState) (sm : SubSnapshot) (p : ParamsSnapshot)
    (hw : HardwareFlags) (h : t.scene.world_objects_visible = false) :
    (update_status t sm p hw).scene.world_objects_visible = false := by
  unfold update_status
  exact update_status_transition_wov_false _ sm p hw
    (by rw [update_status_alert_scene]; exact h)

/-- C6: on the tick where started flips false→true, the status is reset
to Disengaged, the tick index is snapshotted as the drive-start marker,
the end-to-end and wide-camera toggles are re-read, and the
world-objects-visible flag is cleared — staying false on any further tick
that carries no fresh calibration sample. -/
theorem c6_started_rising_edge (s : UIState) (sm : SubSnapshot) (p : ParamsSnapshot)
    (hw : HardwareFlags) (s2 : UIState) (sm2 : SubSnapshot) (p2 : ParamsSnapshot)
    (hw2 : HardwareFlags)
    (hprev : s.started_prev = false)
    (hstart : (update_state s sm hw).scene.started = true)
    (hwov2 : s2.scene.world_objects_visible = false)
    (hcal2 : sm2.updated_liveCalibration = false) :
    (ui_update s sm p hw).status = UIStatus.disengaged ∧
    (ui_update s sm p hw).scene.started_frame = sm.frame ∧
    (ui_update s sm p hw).scene.end_to_end = p.end_to_end ∧
    (ui_update s sm p hw).wide_camera =
      (if hw.tici then p.enable_wide_camera else false) ∧
    (ui_update s sm p hw).scene.world_objects_visible = false ∧
    (ui_update s2 sm2 p2 hw2).scene.world_objects_visible = false := by
  have hsp : (update_state s sm hw).started_prev = false := by
    rw [update_state_started_prev]; exact hprev
  have hmain := update_status_transition_rising
    (update_status_alert (update_state s sm hw) sm) sm p hw
    (by rw [update_status_alert_scene]; exact hstart)
    (by rw [update_status_alert_started_prev]; exact hsp)
  refine ⟨hmain.1, hmain.2.1, hmain.2.2.1, hmain.2.2.2.1, hmain.2.2.2.2, ?_⟩
  have hs2 : (update_state s2 sm2 hw2).scene.world_objects_visible = false := by
    unfold update_state
    rw [us_copies_wov, us_started_wov, us_camera_wov, us_sensors_wov,
        us_carparams_wov, us_panda_wov]
    unfold us_calib
    rw [if_neg (by simp [hcal2])]
    rw [us_radar_wov, us_model_wov, us_engage_wov, us_time_scene]
    exact hwov2
  exact update_status_wov_false _ sm2 p2 hw2 hs2

/-- Witness for C6 at a concrete rising edge followed by a
calibration-free tick. -/
theorem c6_started_rising_edge_witness :
    (ui_update S6 SM6 P1 HW0).status = UIStatus.disengaged ∧
    (ui_update S6 SM6 P1 HW0).scene.started_frame = SM6.frame ∧
    (ui_update S6 SM6 P1 HW0).scene.end_to_end = P1.end_to_end ∧
    (ui_update S6 SM6 P1 HW0).wide_camera =
      (if HW0.tici then P1.enable_wide_camera else false) ∧
    (ui_update S6 SM6 P1 HW0).scene.world_objects_visible = false ∧
    (ui_update S0 SM0 P1 HW0).scene.world_objects_visible = false :=
  c6_started_rising_edge S6 SM6 P1 HW0 S0 SM0 P1 HW0 rfl (by decide) rfl rfl

/-- C10: on any tick where the started flag changes value — in either
direction — `update_status` clears the world-objects-visible flag; on the
falling edge the status, drive-start marker and configuration toggles are
left unchanged. -/
theorem c10_any_edge_wov_reset (s : UIState) (sm : SubSnapshot) (p : ParamsSnapshot)
    (hw : HardwareFlags) (hedge : s.scene.started ≠ s.started_prev) :
    (update_status s sm p hw).scene.world_objects_visible = false ∧
    (s.scene.started = false →
      (update_status s sm p hw).status = s.status ∧
      (update_status s sm p hw).scene.started_frame = s.scene.started_frame ∧
      (update_status s sm p hw).scene.end_to_end = s.scene.end_to_end ∧
      (update_status s sm p hw).wide_camera = s.wide_camera) := by
  constructor
  · unfold update_status
    exact update_status_transition_edge_wov _ sm p hw
      (by rw [update_status_alert_scene, update_status_alert_started_prev]; exact hedge)
  · intro hoff
    have halert : update_status_alert s sm = s := by
      unfold update_status_alert
      rw [if_neg (by simp [hoff])]
    unfold update_status
    rw [halert]
    unfold update_status_transition
    rw [if_pos hedge, if_neg (by simp [hoff])]
    exact ⟨rfl, rfl, rfl, rfl⟩

/-- Witness for C10 at a concrete falling edge. -/
theorem c10_any_edge_wov_reset_witness :
    (update_status S10 SM0 P1 HW0).scene.world_objects_visible = false ∧
    (update_status S10 SM0 P1 HW0).status = S10.status :=
  ⟨(c10_any_edge_wov_reset S10 SM0 P1 HW0 (by decide)).1,
   ((c10_any_edge_wov_reset S10 SM0 P1 HW0 (by decide)).2 rfl).1⟩

end Proofs

end UI
